import Mathlib

/-!
Shallow embedding of the aws-hyper client runtime
(src/aws/rust-runtime/aws-hyper/src/lib.rs) and the default middleware
stack (src/aws/rust-runtime/aws-inlineable/src/default_middleware.rs).

Machine conventions: bytes are naturals; Rust Result<T, E> is Except E T;
asynchronous functions are pure functions (suspension points are
immaterial to the verified properties); a stateful tower service is a
function threading an explicit state of type σ. The type-erased
Box<dyn Debug> body of the source is the content-preserving wrapper
BoxedBody; the boxed error type Box<dyn Error + Send + Sync> is a type
parameter Er together with the injections performed by Into/Box::new.
-/

namespace AwsHyper

variable {B C E T Er OE ε σ H R A : Type}

/-- Bytes are modelled as natural numbers. -/
abbrev Byte := Nat

/-- Model of http::Response<B>: status, headers and a body of type B. -/
structure HttpResponse (B : Type) where
  status : Nat
  headers : List (String × String)
  body : B
deriving DecidableEq

/-- Model of http::Response::map: replace the body, keep status and headers. -/
def HttpResponse.map (f : B → C) (r : HttpResponse B) : HttpResponse C :=
  { status := r.status, headers := r.headers, body := f r.body }

/-- Model of Box<dyn Debug>: the erasure performed by `raw.map(|b| Box::new(b) as _)`
is content preserving, so it is modelled as a plain wrapper. -/
structure BoxedBody (B : Type) where
  val : B
deriving DecidableEq

/-- lib.rs 12-16: SdkSuccess<O> holds the raw response (body boxed) and the parsed value. -/
structure SdkSuccess (T B : Type) where
  raw : HttpResponse (BoxedBody B)
  parsed : T
deriving DecidableEq

/-- lib.rs 18-30: the four-variant SdkError<E>. Er models BoxError. -/
inductive SdkError (E B Er : Type) where
  | ConstructionFailure (err : Er)
  | DispatchFailure (err : Er)
  | ResponseError (raw : HttpResponse (BoxedBody B)) (err : Er)
  | ServiceError (raw : HttpResponse (BoxedBody B)) (err : E)
deriving DecidableEq

/-- Whether an SdkError variant carries a raw response. -/
def SdkError.hasRawResponse : SdkError E B Er → Bool
  | .ResponseError _ _ => true
  | .ServiceError _ _ => true
  | .ConstructionFailure _ => false
  | .DispatchFailure _ => false

/-- lib.rs 32-46: sdk_result maps a parsed Result and the raw response into
Ok(SdkSuccess) or Err(SdkError::ServiceError), boxing the raw body in both cases. -/
def sdk_result (parsed : Except E T) (raw : HttpResponse B) :
    Except (SdkError E B Er) (SdkSuccess T B) :=
  match parsed with
  | .ok v => .ok { raw := raw.map BoxedBody.mk, parsed := v }
  | .error err => .error (.ServiceError (raw.map BoxedBody.mk) err)

/-- One data() yield of an http_body::Body: either a Buf (a sequence of
chunk() views, each a byte list) or a mid-stream error. -/
inductive BodyItem (ε : Type) where
  | data (chunks : List (List Byte))
  | ioErr (e : ε)
deriving DecidableEq

/-- A streaming body is the sequence of its data() yields. -/
abbrev StreamBody (ε : Type) := List (BodyItem ε)

/-- lib.rs 271-274, the inner while loop of read_body: copy every chunk() view of
a Buf, in order (Buf guarantees a nonempty chunk while bytes remain, so the
loop visits the chunk views one after another). -/
def drainBuf : List (List Byte) → List Byte
  | [] => []
  | c :: rest => c ++ drainBuf rest

/-- lib.rs 266-277: read_body drains the body into one contiguous byte vector,
returning the first mid-stream error if any. -/
def read_body : StreamBody ε → Except ε (List Byte)
  | [] => .ok []
  | .ioErr e :: _ => .error e
  | .data chunks :: rest => (read_body rest).map (fun tail => drainBuf chunks ++ tail)

/-- What is left of a streaming body after read_body ran over it through the
mutable reference: on success everything is consumed; on a mid-stream error the
yields up to and including the failing one are consumed. -/
def consumeStream : StreamBody ε → StreamBody ε
  | [] => []
  | .ioErr _ :: rest => rest
  | .data _ :: rest => consumeStream rest

/-- Model of B::from(Bytes) (hyper::Body::from): a single-chunk body holding
exactly the given bytes. -/
def StreamBody.fromBytes (bs : List Byte) : StreamBody ε :=
  [.data [bs]]

/-- The bytes of one data() yield (an errored yield produces no bytes). -/
def itemBytes : BodyItem ε → List Byte
  | .data chunks => drainBuf chunks
  | .ioErr _ => []

/-- The concatenation, in order, of all bytes produced by a body stream. -/
def streamBytes : StreamBody ε → List Byte
  | [] => []
  | i :: rest => itemBytes i ++ streamBytes rest

/-- Whether a body stream is free of mid-stream errors. -/
def noErr : StreamBody ε → Bool
  | [] => true
  | .ioErr _ :: _ => false
  | .data _ :: rest => noErr rest

/-- The ParseHttpResponse trait of smithy_http as used by lib.rs: a cheap
header-only parse that may decline, and a full parse over the buffered body. -/
structure ParseHttpResponse (ε E T : Type) where
  parse_unloaded : HttpResponse (StreamBody ε) → Option (Except E T)
  parse_loaded : HttpResponse (List Byte) → Except E T

/-- lib.rs 89-116: load_response. If parse_unloaded answers, wrap the answer
with sdk_result over the untouched response. Otherwise drain the body; a drain
failure becomes ResponseError carrying the response (body boxed, partially
consumed) and the underlying error; on success parse_loaded sees the buffered
bytes and the result is wrapped over a response whose body is rebuilt from the
buffer via B::from. -/
def load_response (ioBox : ε → Er) (response : HttpResponse (StreamBody ε))
    (handler : ParseHttpResponse ε E T) :
    Except (SdkError E (StreamBody ε) Er) (SdkSuccess T (StreamBody ε)) :=
  match handler.parse_unloaded response with
  | some parsed_response => sdk_result parsed_response response
  | none =>
    match read_body response.body with
    | .error e =>
      .error (.ResponseError
        ((response.map (fun _ => consumeStream response.body)).map BoxedBody.mk)
        (ioBox e))
    | .ok body =>
      let response2 := response.map (fun _ => body)
      sdk_result (handler.parse_loaded response2) (response2.map StreamBody.fromBytes)

/-- The body a result carries in its raw response, when the variant has one. -/
def rawBodyOf : Except (SdkError E B Er) (SdkSuccess T B) → Option B
  | .ok s => some s.raw.body.val
  | .error (.ResponseError raw _) => some raw.body.val
  | .error (.ServiceError raw _) => some raw.body.val
  | .error (.ConstructionFailure _) => none
  | .error (.DispatchFailure _) => none

/-- Modelled from the spec: the internal two-variant error shape of the
operationwip middleware (declared outside src/): a dispatch failure carrying
the transport error, or a construction failure carrying an already boxed error. -/
inductive OperationError (OE Er : Type) where
  | DispatchError (e : OE)
  | ConstructionError (e : Er)
deriving DecidableEq

/-- lib.rs 79-87: operation_error maps the internal shape 1:1 onto
SdkError::DispatchFailure (boxing the transport error via Into) and
SdkError::ConstructionFailure. -/
def operation_error (oeBox : OE → Er) : OperationError OE Er → SdkError E B Er
  | .DispatchError e => .DispatchFailure (oeBox e)
  | .ConstructionError e => .ConstructionFailure e

/-- Modelled from the spec: operation::Request of smithy_http (not under src/),
an HTTP request plus property bag, abstracted as a payload of type A; its body
is either replayable or one-shot, so cloning is fallible, recorded by the
cloneable flag. -/
structure Request (A : Type) where
  data : A
  cloneable : Bool
deriving DecidableEq

/-- Modelled from the spec: the fallible try-clone of a request; a clone, when
possible, is an identical value. -/
def Request.try_clone (r : Request A) : Option (Request A) :=
  if r.cloneable then some r else none

/-- Modelled from the spec: Operation of smithy_http (not under src/), the
bundle of request, response handler and retry policy. -/
structure Operation (H R A : Type) where
  request : Request A
  response_handler : H
  retry_policy : R

/-- Modelled from the spec: Operation::try_clone clones the bundle when the
request can be cloned and fails otherwise. -/
def Operation.try_clone (op : Operation H R A) : Option (Operation H R A) :=
  (op.request.try_clone).map (fun r => { op with request := r })

/-- Modelled from the spec: Operation::into_request_response splits the bundle
into the request and the response handler. -/
def Operation.into_request_response (op : Operation H R A) : Request A × H :=
  (op.request, op.response_handler)

/-- Modelled from the spec: the RetryPolicy trait of operationwip (not under
src/): should_retry(Result<&Response, &Error>) -> Option<()>, a pure decision
where Some grants a retry and None is the absence of an opinion. -/
structure RetryPolicy (Res Err : Type) where
  should_retry : Except Err Res → Option Unit

/-- lib.rs 134-146: RetryStrategy::retry consults the retry policy of the
operation on the obtained result; the question-mark operator propagates a None
verdict as no retry, and a Some verdict yields the retry future (the fixed
five-second sleep is immaterial here). -/
def RetryStrategy.retry (op : Operation H (RetryPolicy Res Err) A)
    (result : Except Err Res) : Option Unit :=
  (op.retry_policy.should_retry result).map (fun _ => ())

/-- lib.rs 148-150: RetryStrategy::clone_request defers to Operation::try_clone. -/
def RetryStrategy.clone_request (op : Operation H R A) : Option (Operation H R A) :=
  op.try_clone

/-- Modelled from the spec: the retry-driven execution loop of section 4.3 (the
tower retry machinery is an external dependency, not part of this repository).
Each attempt clones the operation via RetryStrategy.clone_request — a clone
failure is surfaced as ConstructionFailure with no dispatch — runs the pipeline
on the fresh clone, consults RetryStrategy.retry on the obtained result,
re-enters the attempt on a Some verdict (the delay is immaterial here) and
otherwise returns the result as-is. The fuel argument bounds the recursion; the
spec itself places no bound and leaves attempt-limiting to the policy. -/
def retryDriver (cloneFailErr : Er)
    (pipeline : σ → Operation H (RetryPolicy (SdkSuccess T B) (SdkError E B Er)) A →
      σ × Except (SdkError E B Er) (SdkSuccess T B)) :
    Nat → σ → Operation H (RetryPolicy (SdkSuccess T B) (SdkError E B Er)) A →
      σ × Except (SdkError E B Er) (SdkSuccess T B)
  | fuel, st, op =>
    match RetryStrategy.clone_request op with
    | none => (st, .error (.ConstructionFailure cloneFailErr))
    | some cloned =>
      let out := pipeline st cloned
      match fuel with
      | 0 => out
      | fuel2 + 1 =>
        match RetryStrategy.retry cloned out.2 with
        | none => out
        | some _ => retryDriver cloneFailErr pipeline fuel2 out.1 cloned

/-- lib.rs 118-121, 186-196: ParseResponseService over a stateful inner service.
The operation is split into request and handler, the inner service is called,
an inner failure is classified through operation_error before the response
loader could run, and an inner response goes through load_response. -/
def ParseResponseService.callSt (ioBox : ε → Er) (oeBox : OE → Er)
    (inner : σ → Request A → σ × Except (OperationError OE Er) (HttpResponse (StreamBody ε)))
    (st : σ) (op : Operation (ParseHttpResponse ε E T) R A) :
    σ × Except (SdkError E (StreamBody ε) Er) (SdkSuccess T (StreamBody ε)) :=
  let rh := op.into_request_response
  let out := inner st rh.1
  match out.2 with
  | .error e => (out.1, .error (operation_error oeBox e))
  | .ok resp => (out.1, load_response ioBox resp rh.2)

/-- lib.rs 59-61: the client wraps an inner connector service (modelled with an
explicit service state σ). -/
structure Client (σ A OE Er ε : Type) where
  inner : σ → Request A → σ × Except (OperationError OE Er) (HttpResponse (StreamBody ε))

/-- lib.rs 220-248: Client::call_raw assembles the retry layer over
ParseResponseService over the stage chain and the dispatcher (here abstracted
into the inner service) and runs the operation through it. -/
def Client.call_raw (client : Client σ A OE Er ε) (cloneFailErr : Er)
    (ioBox : ε → Er) (oeBox : OE → Er) (fuel : Nat) (st : σ)
    (input : Operation (ParseHttpResponse ε E T)
      (RetryPolicy (SdkSuccess T (StreamBody ε)) (SdkError E (StreamBody ε) Er)) A) :
    σ × Except (SdkError E (StreamBody ε) Er) (SdkSuccess T (StreamBody ε)) :=
  retryDriver cloneFailErr (ParseResponseService.callSt ioBox oeBox client.inner) fuel st input

/-- lib.rs 208-218: Client::call is call_raw with the parsed value projected
out of the SdkSuccess on the success path. -/
def Client.call (client : Client σ A OE Er ε) (cloneFailErr : Er)
    (ioBox : ε → Er) (oeBox : OE → Er) (fuel : Nat) (st : σ)
    (input : Operation (ParseHttpResponse ε E T)
      (RetryPolicy (SdkSuccess T (StreamBody ε)) (SdkError E (StreamBody ε) Er)) A) :
    σ × Except (SdkError E (StreamBody ε) Er) T :=
  let out := Client.call_raw client cloneFailErr ioBox oeBox fuel st input
  (out.1, out.2.map SdkSuccess.parsed)

/-- Modelled from the spec: MapRequestLayer of smithy_http_tower (not under
src/), a layer that applies a fallible request-mapping stage and then the inner
service. -/
def MapRequestLayer (stage : A → Except Er A) (inner : A → Except Er B) :
    A → Except Er B :=
  fun req => (stage req).bind inner

/-- Modelled from the spec: AsyncMapRequestLayer of smithy_http_tower (not
under src/), the asynchronous request mapper used for credential acquisition;
the suspension is immaterial in this pure model. -/
def AsyncMapRequestLayer (stage : A → Except Er A) (inner : A → Except Er B) :
    A → Except Er B :=
  fun req => (stage req).bind inner

/-- default_middleware.rs 34-55: AwsMiddleware layers endpoint resolution, then
user agent, then credential acquisition, then signing over the inner dispatcher;
ServiceBuilder applies the first-added layer outermost, so a request passes the
stages in exactly that order before dispatch. -/
def AwsMiddleware.layer
    (endpointStage userAgentStage credentialsStage signStage : A → Except Er A)
    (inner : A → Except Er B) : A → Except Er B :=
  MapRequestLayer endpointStage
    (MapRequestLayer userAgentStage
      (AsyncMapRequestLayer credentialsStage
        (MapRequestLayer signStage inner)))

/-- A stage that records its own application in a trace request, to observe the
order in which the middleware stack applies its stages. -/
def tagStage (name : String) : List String → Except Unit (List String) :=
  fun trace => .ok (trace ++ [name])

/-- An instrumented pipeline for observing retry behaviour: the state is a
counter together with the log of the stamps handed to the dispatcher; each run
of the stage sequence stamps the next strictly larger value into the request
and dispatches it, producing the outcome chosen by respond for that stamp. -/
def stampPipeline (respond : Nat → Except (SdkError E B Er) (SdkSuccess T B)) :
    Nat × List Nat →
      Operation H (RetryPolicy (SdkSuccess T B) (SdkError E B Er)) A →
      (Nat × List Nat) × Except (SdkError E B Er) (SdkSuccess T B) :=
  fun st _ => ((st.1 + 1, st.2 ++ [st.1 + 1]), respond (st.1 + 1))

/-- Concrete success type used by the closed examples. -/
abbrev SuccC := SdkSuccess String (StreamBody Nat)

/-- Concrete error type used by the closed examples. -/
abbrev ErrC := SdkError String (StreamBody Nat) Nat

/-- Concrete attempt result type used by the closed examples. -/
abbrev ResC := Except ErrC SuccC

/-- Concrete retry policy type used by the closed examples. -/
abbrev PolC := RetryPolicy SuccC ErrC

/-- Concrete operation type used by the closed examples. -/
abbrev OperC := Operation Unit PolC Nat

/-- A handler that answers from the headers alone, like TestOperationParser of
the source tests. -/
def handlerC1 : ParseHttpResponse Nat String String :=
  { parse_unloaded := fun _ => some (.ok "Hello!")
    parse_loaded := fun _ => .ok "Hello!" }

/-- A response whose body errors as soon as it is drained. -/
def respC1 : HttpResponse (StreamBody Nat) :=
  { status := 200, headers := [("content-type", "x")], body := [BodyItem.ioErr 3] }

/-- An operation whose request cannot be cloned. -/
def opC2 : OperC :=
  { request := { data := 0, cloneable := false }
    response_handler := ()
    retry_policy := { should_retry := fun _ => some () } }

/-- A pipeline that counts how many times it dispatched. -/
def pipelineC2 : Nat → OperC → Nat × ResC :=
  fun st _ => (st + 1, .error (.DispatchFailure 0))

/-- Attempt outcomes: the first attempt fails in dispatch, later ones succeed. -/
def respondC3 : Nat → ResC :=
  fun n =>
    if n = 1 then .error (.DispatchFailure 7)
    else .ok { raw := { status := 200, headers := [], body := BoxedBody.mk [] }
               parsed := "done" }

/-- A pipeline that counts attempts and produces the outcome of respondC3. -/
def pipelineC3 : Nat → OperC → Nat × ResC :=
  fun st _ => (st + 1, respondC3 (st + 1))

/-- A cloneable operation whose policy grants a retry exactly on errors. -/
def opC3 : OperC :=
  { request := { data := 0, cloneable := true }
    response_handler := ()
    retry_policy :=
      { should_retry := fun r =>
          match r with
          | .error _ => some ()
          | .ok _ => none } }

/-- A handler that always requires the loaded body. -/
def handlerC5 : ParseHttpResponse Nat String String :=
  { parse_unloaded := fun _ => none
    parse_loaded := fun _ => .ok "loaded" }

/-- A chunked response body with two yields and nested chunk views. -/
def respC5 : HttpResponse (StreamBody Nat) :=
  { status := 200, headers := [("a", "b")]
    body := [BodyItem.data [[1, 2], [3]], BodyItem.data [[4, 5]]] }

/-- A handler that always requires the loaded body. -/
def handlerC6 : ParseHttpResponse Nat String String :=
  { parse_unloaded := fun _ => none
    parse_loaded := fun _ => .ok "loaded" }

/-- A response whose body fails mid-stream after producing some bytes. -/
def respC6 : HttpResponse (StreamBody Nat) :=
  { status := 500, headers := [("h", "v")]
    body := [BodyItem.data [[1, 2]], BodyItem.ioErr 5, BodyItem.data [[3]]] }

/-- A handler whose loaded parse reports an application-level error. -/
def handlerC7 : ParseHttpResponse Nat String String :=
  { parse_unloaded := fun _ => none
    parse_loaded := fun _ => .error "bad" }

/-- A response with a plain one-yield body. -/
def respC7 : HttpResponse (StreamBody Nat) :=
  { status := 400, headers := [("k", "w")], body := [BodyItem.data [[9]]] }

/-- An inner service that counts calls and fails in dispatch. -/
def innerC8 : Nat → Request Nat → Nat × Except (OperationError Nat Nat) (HttpResponse (StreamBody Nat)) :=
  fun st _ => (st + 1, .error (.DispatchError 3))

/-- An operation fed to the parse-response service in the closed example. -/
def opC8 : Operation (ParseHttpResponse Nat String String) Unit Nat :=
  { request := { data := 7, cloneable := true }
    response_handler := handlerC6
    retry_policy := () }

/-- Draining a body free of mid-stream errors yields exactly the concatenation
of the bytes it produces. -/
theorem read_body_of_noErr (s : StreamBody ε) (h : noErr s = true) :
    read_body s = .ok (streamBytes s) := by
  induction s with
  | nil => rfl
  | cons i rest ih =>
    cases i with
    | ioErr e => simp [noErr] at h
    | data chunks =>
      have h2 : noErr rest = true := by simpa [noErr] using h
      simp [read_body, streamBytes, itemBytes, ih h2, Except.map]

/-- Draining a body rebuilt from a byte buffer gives back exactly that buffer. -/
theorem read_body_fromBytes (bs : List Byte) :
    read_body (StreamBody.fromBytes bs : StreamBody ε) = .ok bs := by
  simp [StreamBody.fromBytes, read_body, drainBuf, Except.map]

/-- C1: when parse_unloaded answers on a raw response, load_response returns
exactly the answer mapped through sdk_result over that response, and the raw
response it carries still holds the original, undrained body. -/
theorem c1_unloaded_fast_path (ioBox : ε → Er)
    (handler : ParseHttpResponse ε E T)
    (resp : HttpResponse (StreamBody ε)) (ans : Except E T)
    (h : handler.parse_unloaded resp = some ans) :
    load_response ioBox resp handler = sdk_result ans resp ∧
    rawBodyOf (load_response ioBox resp handler) = some resp.body := by
  have h1 : load_response ioBox resp handler = sdk_result ans resp := by
    simp [load_response, h]
  refine ⟨h1, ?_⟩
  rw [h1]
  cases ans <;> simp [sdk_result, rawBodyOf, HttpResponse.map]

theorem c1_unloaded_fast_path_witness :
    handlerC1.parse_unloaded respC1 = some (Except.ok "Hello!") ∧
    (load_response (fun e => e) respC1 handlerC1 =
        sdk_result (Except.ok "Hello!") respC1 ∧
      rawBodyOf (load_response (fun e => e) respC1 handlerC1) = some respC1.body) :=
  ⟨rfl, c1_unloaded_fast_path (fun e => e) handlerC1 respC1 (Except.ok "Hello!") rfl⟩

/-- C5: buffering a chunked, error-free body via read_body is lossless — the
buffer equals the in-order concatenation of all bytes the stream produces —
load_response hands parse_loaded exactly that buffer and rebuilds the raw
response from it, and draining the rebuilt body returns the same bytes. -/
theorem c5_body_buffering_lossless (ioBox : ε → Er)
    (handler : ParseHttpResponse ε E T) (resp : HttpResponse (StreamBody ε))
    (h1 : handler.parse_unloaded resp = none) (h2 : noErr resp.body = true) :
    read_body resp.body = .ok (streamBytes resp.body) ∧
    load_response ioBox resp handler =
      sdk_result
        (handler.parse_loaded
          { status := resp.status, headers := resp.headers, body := streamBytes resp.body })
        { status := resp.status, headers := resp.headers
          body := StreamBody.fromBytes (streamBytes resp.body) } ∧
    read_body (StreamBody.fromBytes (streamBytes resp.body) : StreamBody ε) =
      .ok (streamBytes resp.body) := by
  have hb : read_body resp.body = .ok (streamBytes resp.body) :=
    read_body_of_noErr resp.body h2
  refine ⟨hb, ?_, read_body_fromBytes _⟩
  simp [load_response, h1, hb, HttpResponse.map]

theorem c5_body_buffering_lossless_witness :
    handlerC5.parse_unloaded respC5 = none ∧ noErr respC5.body = true ∧
    (read_body respC5.body = .ok (streamBytes respC5.body) ∧
      load_response (fun e => e) respC5 handlerC5 =
        sdk_result
          (handlerC5.parse_loaded
            { status := respC5.status, headers := respC5.headers
              body := streamBytes respC5.body })
          { status := respC5.status, headers := respC5.headers
            body := StreamBody.fromBytes (streamBytes respC5.body) } ∧
      read_body (StreamBody.fromBytes (streamBytes respC5.body) : StreamBody Nat) =
        .ok (streamBytes respC5.body)) :=
  ⟨rfl, rfl, c5_body_buffering_lossless (fun e => e) handlerC5 respC5 rfl rfl⟩

/-- C6: when parse_unloaded declines and draining the body fails mid-stream,
load_response returns ResponseError carrying the raw response — actual status
and headers, boxed partially consumed body — and the underlying error. -/
theorem c6_drain_failure_response_error (ioBox : ε → Er)
    (handler : ParseHttpResponse ε E T) (resp : HttpResponse (StreamBody ε)) (e : ε)
    (h1 : handler.parse_unloaded resp = none)
    (h2 : read_body resp.body = .error e) :
    load_response ioBox resp handler =
      .error (.ResponseError
        { status := resp.status, headers := resp.headers
          body := BoxedBody.mk (consumeStream resp.body) }
        (ioBox e)) := by
  simp [load_response, h1, h2, HttpResponse.map]

theorem c6_drain_failure_response_error_witness :
    handlerC6.parse_unloaded respC6 = none ∧
    read_body respC6.body = .error 5 ∧
    load_response (fun e => e) respC6 handlerC6 =
      .error (.ResponseError
        { status := respC6.status, headers := respC6.headers
          body := BoxedBody.mk (consumeStream respC6.body) }
        5) :=
  ⟨rfl, rfl, c6_drain_failure_response_error (fun e => e) handlerC6 respC6 5 rfl rfl⟩

/-- C7: sdk_result sends Ok(v) to SdkSuccess over the boxed actual raw response
and Err(e) to ServiceError over the same raw response; consequently a handler
whose loaded parse errs makes load_response return ServiceError carrying the
actual status and headers received together with that typed error. -/
theorem c7_sdk_result_mapping (B : Type) (ioBox : ε → Er)
    (handler : ParseHttpResponse ε E T) (resp : HttpResponse (StreamBody ε)) :
    (∀ (v : T) (raw : HttpResponse B),
      sdk_result (Except.ok v) raw =
        (Except.ok { raw := raw.map BoxedBody.mk, parsed := v } :
          Except (SdkError E B Er) (SdkSuccess T B))) ∧
    (∀ (e : E) (raw : HttpResponse B),
      sdk_result (Except.error e) raw =
        (Except.error (SdkError.ServiceError (raw.map BoxedBody.mk) e) :
          Except (SdkError E B Er) (SdkSuccess T B))) ∧
    (∀ (bytes : List Byte) (e : E),
      handler.parse_unloaded resp = none →
      read_body resp.body = Except.ok bytes →
      handler.parse_loaded
        { status := resp.status, headers := resp.headers, body := bytes } =
        Except.error e →
      load_response ioBox resp handler =
        Except.error (SdkError.ServiceError
          { status := resp.status, headers := resp.headers
            body := BoxedBody.mk (StreamBody.fromBytes bytes) } e)) := by
  refine ⟨fun v raw => rfl, fun e raw => rfl, fun bytes e h1 h2 h3 => ?_⟩
  simp [load_response, h1, h2, HttpResponse.map, h3, sdk_result]

theorem c7_sdk_result_mapping_witness :
    handlerC7.parse_unloaded respC7 = none ∧
    read_body respC7.body = Except.ok [9] ∧
    handlerC7.parse_loaded
      { status := respC7.status, headers := respC7.headers, body := [9] } =
      Except.error "bad" ∧
    load_response (fun e => e) respC7 handlerC7 =
      Except.error (SdkError.ServiceError
        { status := respC7.status, headers := respC7.headers
          body := BoxedBody.mk (StreamBody.fromBytes [9]) } "bad") :=
  ⟨rfl, rfl, rfl,
    (c7_sdk_result_mapping (StreamBody Nat) (fun e => e) handlerC7 respC7).2.2
      [9] "bad" rfl rfl rfl⟩

/-- Unfolding of one attempt of the driver when no retry budget remains. -/
theorem retryDriver_zero (cloneFailErr : Er)
    (pipeline : σ → Operation H (RetryPolicy (SdkSuccess T B) (SdkError E B Er)) A →
      σ × Except (SdkError E B Er) (SdkSuccess T B))
    (st : σ) (op : Operation H (RetryPolicy (SdkSuccess T B) (SdkError E B Er)) A) :
    retryDriver cloneFailErr pipeline 0 st op =
      match RetryStrategy.clone_request op with
      | none => (st, .error (.ConstructionFailure cloneFailErr))
      | some cloned => pipeline st cloned := by
  cases h : RetryStrategy.clone_request op <;> simp [retryDriver, h]

/-- Unfolding of one attempt of the driver with retry budget remaining. -/
theorem retryDriver_succ (cloneFailErr : Er)
    (pipeline : σ → Operation H (RetryPolicy (SdkSuccess T B) (SdkError E B Er)) A →
      σ × Except (SdkError E B Er) (SdkSuccess T B))
    (fuel : Nat) (st : σ)
    (op : Operation H (RetryPolicy (SdkSuccess T B) (SdkError E B Er)) A) :
    retryDriver cloneFailErr pipeline (fuel + 1) st op =
      match RetryStrategy.clone_request op with
      | none => (st, .error (.ConstructionFailure cloneFailErr))
      | some cloned =>
        match RetryStrategy.retry cloned (pipeline st cloned).2 with
        | none => pipeline st cloned
        | some _ =>
          retryDriver cloneFailErr pipeline fuel (pipeline st cloned).1 cloned := by
  conv_lhs => rw [retryDriver]

/-- A cloneable operation clones to an identical value. -/
theorem clone_request_of_cloneable
    (op : Operation H R A) (h : op.request.cloneable = true) :
    RetryStrategy.clone_request op = some op := by
  simp [RetryStrategy.clone_request, Operation.try_clone, Request.try_clone, h]

/-- C2: when the request of an operation cannot be cloned, the driver returns
ConstructionFailure with the state untouched, for every pipeline — so no
dispatch of that operation is ever attempted. -/
theorem c2_clone_failure_construction (cloneFailErr : Er)
    (pipeline : σ → Operation H (RetryPolicy (SdkSuccess T B) (SdkError E B Er)) A →
      σ × Except (SdkError E B Er) (SdkSuccess T B))
    (fuel : Nat) (st : σ)
    (op : Operation H (RetryPolicy (SdkSuccess T B) (SdkError E B Er)) A)
    (h : Operation.try_clone op = none) :
    retryDriver cloneFailErr pipeline fuel st op =
      (st, .error (.ConstructionFailure cloneFailErr)) := by
  cases fuel <;> simp [retryDriver, RetryStrategy.clone_request, h]

theorem c2_clone_failure_construction_witness :
    Operation.try_clone opC2 = none ∧
    retryDriver 99 pipelineC2 5 0 opC2 = (0, .error (.ConstructionFailure 99)) :=
  ⟨rfl, c2_clone_failure_construction 99 pipelineC2 5 0 opC2 rfl⟩

/-- C3 counterexample: the driver performed a retry (the counting pipeline ran
twice) although the verdict consulted after the first attempt was some (), and
the none verdict after the second attempt ended the loop with the result
returned as-is — refuting that only a None-or-absent verdict retries. -/
theorem c3_counterexample :
    RetryStrategy.retry opC3 (respondC3 1) = some () ∧
    RetryStrategy.retry opC3 (respondC3 2) = none ∧
    retryDriver 99 pipelineC3 5 0 opC3 = (2, respondC3 2) := by
  exact ⟨rfl, rfl, rfl⟩

/-- C3 as amended: on every obtained attempt Result the driver consults the
retry policy should_retry on that Result; only a Some verdict retries, and a
None or absent verdict means no retry and the Result is returned as-is. -/
theorem c3_amended_verdict_semantics (cloneFailErr : Er)
    (pipeline : σ → Operation H (RetryPolicy (SdkSuccess T B) (SdkError E B Er)) A →
      σ × Except (SdkError E B Er) (SdkSuccess T B))
    (fuel : Nat) (st st2 : σ)
    (op : Operation H (RetryPolicy (SdkSuccess T B) (SdkError E B Er)) A)
    (r : Except (SdkError E B Er) (SdkSuccess T B))
    (hclone : op.request.cloneable = true)
    (hrun : pipeline st op = (st2, r)) :
    (op.retry_policy.should_retry r = none →
      retryDriver cloneFailErr pipeline (fuel + 1) st op = (st2, r)) ∧
    (∀ u, op.retry_policy.should_retry r = some u →
      retryDriver cloneFailErr pipeline (fuel + 1) st op =
        retryDriver cloneFailErr pipeline fuel st2 op) := by
  have hcl := clone_request_of_cloneable op hclone
  constructor
  · intro hv
    rw [retryDriver_succ, hcl]
    simp [hrun, RetryStrategy.retry, hv]
  · intro u hv
    rw [retryDriver_succ, hcl]
    simp [hrun, RetryStrategy.retry, hv]

theorem c3_amended_verdict_semantics_witness :
    opC3.request.cloneable = true ∧
    pipelineC3 0 opC3 = (1, respondC3 1) ∧
    opC3.retry_policy.should_retry (respondC3 1) = some () ∧
    retryDriver 99 pipelineC3 5 0 opC3 = retryDriver 99 pipelineC3 4 1 opC3 :=
  ⟨rfl, rfl, rfl,
    (c3_amended_verdict_semantics 99 pipelineC3 4 0 1 opC3 (respondC3 1) rfl rfl).2
      () rfl⟩

/-- Each run of the instrumented driver extends the dispatch log with the next
stamp, so the log records every re-run of the stage sequence in order. -/
theorem stamp_log_extends (cloneFailErr : Er)
    (respond : Nat → Except (SdkError E B Er) (SdkSuccess T B)) (fuel : Nat)
    (st : Nat × List Nat)
    (op : Operation H (RetryPolicy (SdkSuccess T B) (SdkError E B Er)) A)
    (hclone : op.request.cloneable = true) :
    ∃ rest,
      ((retryDriver cloneFailErr (stampPipeline respond) fuel st op).1).2 =
        st.2 ++ (st.1 + 1) :: rest := by
  have hcl := clone_request_of_cloneable op hclone
  induction fuel generalizing st with
  | zero =>
    rw [retryDriver_zero, hcl]
    refine ⟨[], ?_⟩
    simp [stampPipeline]
  | succ fuel2 ih =>
    rw [retryDriver_succ, hcl]
    cases hv : RetryStrategy.retry op (respond (st.1 + 1)) with
    | none =>
      refine ⟨[], ?_⟩
      simp [stampPipeline, hv]
    | some u =>
      obtain ⟨rest2, hrest2⟩ := ih (st.1 + 1, st.2 ++ [st.1 + 1])
      refine ⟨(st.1 + 1 + 1) :: rest2, ?_⟩
      simpa [stampPipeline, hv] using hrest2

/-- C4: when the policy grants a retry on the first attempt, the driver re-runs
the full stage sequence on a freshly cloned operation, so the monotonically
increasing stamp a stage writes into the request is strictly greater on the
retried attempt than on the original one. -/
theorem c4_retry_reruns_stages (cloneFailErr : Er)
    (respond : Nat → Except (SdkError E B Er) (SdkSuccess T B)) (fuel : Nat)
    (op : Operation H (RetryPolicy (SdkSuccess T B) (SdkError E B Er)) A)
    (hclone : op.request.cloneable = true)
    (hverdict : op.retry_policy.should_retry (respond 1) = some ()) :
    ∃ a b rest,
      ((retryDriver cloneFailErr (stampPipeline respond) (fuel + 1)
          (0, ([] : List Nat)) op).1).2 = a :: b :: rest ∧ a < b := by
  have hcl := clone_request_of_cloneable op hclone
  have step :
      retryDriver cloneFailErr (stampPipeline respond) (fuel + 1)
          (0, ([] : List Nat)) op =
        retryDriver cloneFailErr (stampPipeline respond) fuel (1, [1]) op := by
    rw [retryDriver_succ, hcl]
    simp [stampPipeline, RetryStrategy.retry, hverdict]
  obtain ⟨rest, hrest⟩ :=
    stamp_log_extends cloneFailErr respond fuel (1, [1]) op hclone
  refine ⟨1, 2, rest, ?_, by omega⟩
  rw [step]
  simpa using hrest

theorem c4_retry_reruns_stages_witness :
    opC3.request.cloneable = true ∧
    opC3.retry_policy.should_retry (respondC3 1) = some () ∧
    ∃ a b rest,
      ((retryDriver 99 (stampPipeline respondC3) 1 (0, ([] : List Nat)) opC3).1).2 =
        a :: b :: rest ∧ a < b :=
  ⟨rfl, rfl, c4_retry_reruns_stages 99 respondC3 0 opC3 rfl rfl⟩

/-- C8: the internal two-variant shape maps 1:1 onto ConstructionFailure and
DispatchFailure, neither of which carries a raw response, and the
parse-response service classifies every inner failure this way before the
response loader could run. -/
theorem c8_operation_error_mapping (ioBox : ε → Er) (oeBox : OE → Er)
    (inner : σ → Request A → σ × Except (OperationError OE Er) (HttpResponse (StreamBody ε))) :
    (∀ e : OE,
      operation_error oeBox (OperationError.DispatchError e) =
        (SdkError.DispatchFailure (oeBox e) : SdkError E (StreamBody ε) Er)) ∧
    (∀ e : Er,
      operation_error oeBox (OperationError.ConstructionError e) =
        (SdkError.ConstructionFailure e : SdkError E (StreamBody ε) Er)) ∧
    (∀ o : OperationError OE Er,
      (operation_error oeBox o : SdkError E (StreamBody ε) Er).hasRawResponse = false) ∧
    (∀ (st st2 : σ) (op : Operation (ParseHttpResponse ε E T) R A)
        (oe : OperationError OE Er),
      inner st op.request = (st2, .error oe) →
      ParseResponseService.callSt ioBox oeBox inner st op =
        (st2, .error (operation_error oeBox oe))) := by
  refine ⟨fun e => rfl, fun e => rfl, fun o => ?_, fun st st2 op oe h => ?_⟩
  · cases o <;> rfl
  · simp [ParseResponseService.callSt, Operation.into_request_response, h]

theorem c8_operation_error_mapping_witness :
    innerC8 0 opC8.request = (1, .error (.DispatchError 3)) ∧
    ParseResponseService.callSt (fun e => e) (fun e => e) innerC8 0 opC8 =
      (1, .error (operation_error (fun e => e) (OperationError.DispatchError 3))) :=
  ⟨rfl,
    (c8_operation_error_mapping (fun e => e) (fun e => e) innerC8).2.2.2
      0 1 opC8 (OperationError.DispatchError 3) rfl⟩

/-- C9: the default middleware stack applies its stages in the fixed order
endpoint resolution, user agent, credential acquisition, signing, dispatch, so
the signer observes the request after every other decoration; a set of stages
tagging a trace request confirms the order concretely. -/
theorem c9_middleware_order
    (endpointStage userAgentStage credentialsStage signStage : A → Except Er A)
    (inner : A → Except Er B) :
    (∀ req,
      AwsMiddleware.layer endpointStage userAgentStage credentialsStage signStage
          inner req =
        (endpointStage req).bind (fun r1 =>
          (userAgentStage r1).bind (fun r2 =>
            (credentialsStage r2).bind (fun r3 =>
              (signStage r3).bind inner)))) ∧
    AwsMiddleware.layer (tagStage "endpoint") (tagStage "user_agent")
        (tagStage "credentials") (tagStage "sign") (fun r => .ok r) [] =
      .ok ["endpoint", "user_agent", "credentials", "sign"] := by
  exact ⟨fun req => rfl, rfl⟩

/-- C10: Client::call is exactly Client::call_raw with the parsed value
projected out on success — it succeeds with r iff call_raw succeeds with an
SdkSuccess whose parsed field is r, and both fail with the identical SdkError. -/
theorem c10_call_projects_call_raw (client : Client σ A OE Er ε)
    (cloneFailErr : Er) (ioBox : ε → Er) (oeBox : OE → Er) (fuel : Nat) (st : σ)
    (input : Operation (ParseHttpResponse ε E T)
      (RetryPolicy (SdkSuccess T (StreamBody ε)) (SdkError E (StreamBody ε) Er)) A) :
    (∀ r : T,
      (Client.call client cloneFailErr ioBox oeBox fuel st input).2 = .ok r ↔
        ∃ s : SdkSuccess T (StreamBody ε),
          (Client.call_raw client cloneFailErr ioBox oeBox fuel st input).2 = .ok s ∧
            s.parsed = r) ∧
    (∀ err : SdkError E (StreamBody ε) Er,
      (Client.call client cloneFailErr ioBox oeBox fuel st input).2 = .error err ↔
        (Client.call_raw client cloneFailErr ioBox oeBox fuel st input).2 = .error err) ∧
    (Client.call client cloneFailErr ioBox oeBox fuel st input).1 =
      (Client.call_raw client cloneFailErr ioBox oeBox fuel st input).1 := by
  cases hr : (Client.call_raw client cloneFailErr ioBox oeBox fuel st input).2 with
  | ok s =>
    refine ⟨fun r => ?_, fun err => ?_, ?_⟩ <;>
      simp [Client.call, hr, Except.map]
  | error e =>
    refine ⟨fun r => ?_, fun err => ?_, ?_⟩ <;>
      simp [Client.call, hr, Except.map]

end AwsHyper
